import Mathlib

/-!
# Verification of the crypto-forecasting signal/trading engine

Shallow embedding of the core algorithms of the repository
(`src/backend/utils/indicators.js`, `src/backend/services/tradingService.js`,
`src/backend/websockets/marketDataSocket.js`,
`src/backend/websockets/wsServer.js`) over exact rational arithmetic
(JavaScript numbers are modelled as `ℚ`; every concrete input used below is
chosen so that the IEEE-754 double computation and the exact rational
computation agree on all compared values).
-/

namespace CryptoSpec

/-- Model of `parseFloat(x.toFixed(8))` from the source: round to 8 decimal places. -/
def roundTo8 (q : ℚ) : ℚ := (round (q * 100000000) : ℚ) / 100000000

/-- Model of `parseFloat(x.toFixed(2))` from the source: round to 2 decimal places. -/
def roundTo2 (q : ℚ) : ℚ := (round (q * 100) : ℚ) / 100

theorem roundTo8_mono {a b : ℚ} (h : a ≤ b) : roundTo8 a ≤ roundTo8 b := by
  unfold roundTo8
  have : round (a * 100000000) ≤ round (b * 100000000) := by
    rw [round_eq, round_eq]
    exact Int.floor_mono (by linarith)
  have h2 : ((round (a * 100000000) : ℤ) : ℚ) ≤ ((round (b * 100000000) : ℤ) : ℚ) := by
    exact_mod_cast this
  linarith

/-! ## Signal uniqueness check (`isUniqueSignal`, indicators.js lines 415-454) -/

/-- A trading signal as consumed by `isUniqueSignal`: the fields the function
reads (`type` is the direction, `timestamp` in milliseconds since epoch;
`new Date(...)` subtraction in the source yields milliseconds). -/
structure Signal where
  symbol : String
  type : String
  timeframe : String
  timestamp : ℚ
deriving Repr, DecidableEq

/-- The `timeWindows[timeframe] || 60` lookup of `isUniqueSignal`
(indicators.js lines 441-450), in minutes. -/
def minWindow (tf : String) : ℚ :=
  if tf = "1m" then 5
  else if tf = "5m" then 15
  else if tf = "15m" then 60
  else if tf = "1h" then 240
  else if tf = "4h" then 720
  else if tf = "1d" then 1440 * 2
  else 60

/-- The `reduce` in indicators.js lines 433-435: pick the signal with the
latest timestamp, initial accumulator `sameSideSignals[0]`. -/
def pickLatest (latest s : Signal) : Signal :=
  if s.timestamp > latest.timestamp then s else latest

/-- Model of `isUniqueSignal(newSignal, recentSignals, timeframe)`
(indicators.js lines 415-454).  Note that the source never reads
`symbol`: it filters `recentSignals` by `timeframe` and by direction
(`type`) only, finds the most recent same-direction signal, and accepts
exactly when the age of that signal exceeds the timeframe window. -/
def isUniqueSignal (newSignal : Signal) (recentSignals : List Signal)
    (timeframe : String) : Bool :=
  let sameTimeframeSignals := recentSignals.filter (fun s => s.timeframe == timeframe)
  if sameTimeframeSignals.isEmpty then true
  else
    let sameSideSignals := sameTimeframeSignals.filter (fun s => s.type == newSignal.type)
    if sameSideSignals.isEmpty then true
    else
      let mostRecentSignal := sameSideSignals.foldl pickLatest
        (sameSideSignals.headD newSignal)
      let timeDiffMinutes := (newSignal.timestamp - mostRecentSignal.timestamp) / (1000 * 60)
      timeDiffMinutes > minWindow timeframe

theorem pickLatest_cases (a b : Signal) : pickLatest a b = a ∨ pickLatest a b = b := by
  unfold pickLatest; split
  · exact Or.inr rfl
  · exact Or.inl rfl

theorem le_pickLatest_left (a b : Signal) : a.timestamp ≤ (pickLatest a b).timestamp := by
  unfold pickLatest; split
  · linarith
  · exact le_refl _

theorem le_pickLatest_right (a b : Signal) : b.timestamp ≤ (pickLatest a b).timestamp := by
  unfold pickLatest; split
  · exact le_refl _
  · linarith

/-- The fold result is an element of `init :: l`. -/
theorem foldl_pickLatest_mem (init : Signal) (l : List Signal) :
    l.foldl pickLatest init = init ∨ l.foldl pickLatest init ∈ l := by
  induction l generalizing init with
  | nil => exact Or.inl rfl
  | cons h t ih =>
    rw [List.foldl_cons]
    rcases ih (pickLatest init h) with h1 | h1
    · rw [h1]
      rcases pickLatest_cases init h with h2 | h2
      · exact Or.inl h2
      · rw [h2]; exact Or.inr (List.mem_cons_self h t)
    · exact Or.inr (List.mem_cons_of_mem h h1)

/-- The fold result dominates the accumulator and every list element. -/
theorem foldl_pickLatest_ge (init : Signal) (l : List Signal) :
    init.timestamp ≤ (l.foldl pickLatest init).timestamp ∧
      ∀ s ∈ l, s.timestamp ≤ (l.foldl pickLatest init).timestamp := by
  induction l generalizing init with
  | nil => exact ⟨le_refl _, by simp⟩
  | cons h t ih =>
    rw [List.foldl_cons]
    obtain ⟨h1, h2⟩ := ih (pickLatest init h)
    refine ⟨le_trans (le_pickLatest_left init h) h1, ?_⟩
    intro s hs
    rcases List.mem_cons.mp hs with rfl | hs
    · exact le_trans (le_pickLatest_right init s) h1
    · exact h2 s hs

/-- Characterization of `isUniqueSignal`: the check rejects (returns `false`)
exactly when some previously emitted signal with the same direction and the
same timeframe — the symbol is never examined — lies within the
timeframe-specific window (in minutes, compared against the age in
milliseconds divided by 60000). -/
theorem isUniqueSignal_eq_false_iff (n : Signal) (recent : List Signal) (tf : String) :
    isUniqueSignal n recent tf = false ↔
      ∃ s ∈ recent, s.timeframe = tf ∧ s.type = n.type ∧
        n.timestamp - s.timestamp ≤ 1000 * 60 * minWindow tf := by
  unfold isUniqueSignal
  by_cases hempty : (recent.filter (fun s => s.timeframe == tf)).isEmpty = true
  · rw [if_pos hempty]
    simp only [Bool.true_eq_false, false_iff]
    rintro ⟨s, hs, h1, _h2, _h3⟩
    have hmem : s ∈ recent.filter (fun s => s.timeframe == tf) :=
      List.mem_filter.mpr ⟨hs, by simp [h1]⟩
    rw [List.isEmpty_iff] at hempty
    rw [hempty] at hmem
    cases hmem
  · rw [if_neg hempty]
    by_cases hside : ((recent.filter (fun s => s.timeframe == tf)).filter
        (fun s => s.type == n.type)).isEmpty = true
    · rw [if_pos hside]
      simp only [Bool.true_eq_false, false_iff]
      rintro ⟨s, hs, h1, h2, _h3⟩
      have hmem : s ∈ (recent.filter (fun s => s.timeframe == tf)).filter
          (fun s => s.type == n.type) :=
        List.mem_filter.mpr ⟨List.mem_filter.mpr ⟨hs, by simp [h1]⟩, by simp [h2]⟩
      rw [List.isEmpty_iff] at hside
      rw [hside] at hmem
      cases hmem
    · rw [if_neg hside]
      have hne : (recent.filter (fun s => s.timeframe == tf)).filter
          (fun s => s.type == n.type) ≠ [] := by
        simpa [List.isEmpty_iff] using hside
      obtain ⟨h, t, hsss⟩ := List.exists_cons_of_ne_nil hne
      rw [hsss]
      simp only [List.headD_cons]
      have hwindow : (0 : ℚ) < 1000 * 60 := by norm_num
      rw [decide_eq_false_iff_not, gt_iff_lt, lt_div_iff₀ hwindow, not_lt]
      constructor
      · intro hle
        have hmr : (h :: t).foldl pickLatest h ∈ h :: t := by
          rcases foldl_pickLatest_mem h (h :: t) with h1 | h1
          · rw [h1]; exact List.mem_cons_self h t
          · exact h1
        have hmem : (h :: t).foldl pickLatest h ∈
            (recent.filter (fun s => s.timeframe == tf)).filter
              (fun s => s.type == n.type) := by rw [hsss]; exact hmr
        obtain ⟨hmem1, hty⟩ := List.mem_filter.mp hmem
        obtain ⟨hmem2, htf⟩ := List.mem_filter.mp hmem1
        exact ⟨_, hmem2, by simpa using htf, by simpa using hty, by linarith⟩
      · rintro ⟨s, hs, h1, h2, h3⟩
        have hmem : s ∈ (recent.filter (fun s => s.timeframe == tf)).filter
            (fun s => s.type == n.type) :=
          List.mem_filter.mpr ⟨List.mem_filter.mpr ⟨hs, by simp [h1]⟩, by simp [h2]⟩
        rw [hsss] at hmem
        have hts : s.timestamp ≤ ((h :: t).foldl pickLatest h).timestamp :=
          (foldl_pickLatest_ge h (h :: t)).2 s hmem
        linarith

/-- C1 (amended): the uniqueness check keys on (direction, timeframe) only —
the symbol of the new signal and of the stored signals is never compared.  A
new signal is rejected exactly when some previously emitted signal with the
same direction and timeframe (for any symbol) has age at most the
timeframe-specific window: 5 minutes for "1m", 15 for "5m", 60 for "15m",
240 for "1h", 2880 for "1d".  In particular a SHORT at t=0 blocks another
SHORT 15m-signal at t=30min, while a LONG at t=5min is accepted. -/
theorem C1_isUniqueSignal_rejects_iff :
    (minWindow "1m" = 5 ∧ minWindow "5m" = 15 ∧ minWindow "15m" = 60 ∧
      minWindow "1h" = 240 ∧ minWindow "1d" = 2880) ∧
    (∀ (n : Signal) (recent : List Signal) (tf : String),
      isUniqueSignal n recent tf = false ↔
        ∃ s ∈ recent, s.timeframe = tf ∧ s.type = n.type ∧
          n.timestamp - s.timestamp ≤ 1000 * 60 * minWindow tf) ∧
    isUniqueSignal ⟨"BTC", "SHORT", "15m", 1800000⟩
      [⟨"BTC", "SHORT", "15m", 0⟩] "15m" = false ∧
    isUniqueSignal ⟨"BTC", "LONG", "15m", 300000⟩
      [⟨"BTC", "SHORT", "15m", 0⟩] "15m" = true := by
  refine ⟨by (simp [minWindow]; norm_num), isUniqueSignal_eq_false_iff, ?_, ?_⟩
  · exact (isUniqueSignal_eq_false_iff _ _ _).mpr
      ⟨⟨"BTC", "SHORT", "15m", 0⟩, by simp, rfl, rfl, by (simp [minWindow]; norm_num)⟩
  · rw [← Bool.not_eq_false, isUniqueSignal_eq_false_iff]
    rintro ⟨s, hs, _h1, h2, _h3⟩
    simp only [List.mem_singleton] at hs
    rw [hs] at h2
    simp at h2

/-- C1 counterexample: the claim states rejection happens exactly when a
prior signal with the same (symbol, direction, timeframe) key is within the
window.  Here the only prior signal has a different symbol ("ETH", not
"BTC"), so the claim mandates acceptance, yet `isUniqueSignal` rejects the
new "BTC" signal: the code never compares symbols. -/
theorem C1_counterexample :
    isUniqueSignal ⟨"BTC", "SHORT", "15m", 1800000⟩
      [⟨"ETH", "SHORT", "15m", 0⟩] "15m" = false ∧
    ("ETH" : String) ≠ "BTC" := by
  refine ⟨(isUniqueSignal_eq_false_iff _ _ _).mpr
    ⟨⟨"ETH", "SHORT", "15m", 0⟩, by simp, rfl, rfl, by (simp [minWindow]; norm_num)⟩, by simp⟩

/-! ## Feed-client reconnection (`marketDataSocket.js`)

`_reconnect` (lines 196-212): if `reconnectAttempts >= maxReconnectAttempts`
(10) it emits `reconnect_failed` and schedules nothing; otherwise it
increments the counter and schedules `connect()` after
`reconnectDelay * 1.5^(reconnectAttempts - 1)` ms with base delay 3000.

`connect()` (lines 28-45): it creates the WebSocket, registers the four
event handlers, and then unconditionally executes
`this.reconnectAttempts = 0` — synchronously, before the `open`, `error`
or `close` event of the new socket can fire (the code comment reads
"Reset reconnect attempts on successful connection", but the statement is
not inside the `open` handler). -/

/-- Result of one `_reconnect` call given the current `reconnectAttempts`
counter: `none` means the terminal `reconnect_failed` event was emitted and
nothing was scheduled; `some (n, d)` means the counter became `n` and a
reconnect was scheduled after `d` milliseconds. -/
def reconnectCall (reconnectAttempts : ℕ) : Option (ℕ × ℚ) :=
  if 10 ≤ reconnectAttempts then none
  else some (reconnectAttempts + 1, 3000 * (3 / 2 : ℚ) ^ reconnectAttempts)

/-- Model of `connect()` line 40: `this.reconnectAttempts = 0`, executed on every
call of `connect`, whether or not the connection subsequently succeeds. -/
def connectEntry (_reconnectAttempts : ℕ) : ℕ := 0

/-- The counter observed by the k-th `_reconnect` call in a run where every
connection attempt ends in a `close` event (the constructor itself never
throws, e.g. the server refuses or drops every connection): each scheduled
reconnect runs `connect()`, which resets the counter to 0 before the next
`close` fires. -/
def closeLoopCounter : ℕ → ℕ
  | 0 => 0
  | k + 1 =>
    match reconnectCall (closeLoopCounter k) with
    | none => closeLoopCounter k
    | some (n, _) => connectEntry n

/-- The counter observed by the k-th `_reconnect` call in a run where every
`connect()` call itself throws (the only path on which `reconnectAttempts`
is never reset, since the reset on line 40 follows the `new WebSocket`
expression): here the counter does accumulate. -/
def throwLoopCounter : ℕ → ℕ
  | 0 => 0
  | k + 1 =>
    match reconnectCall (throwLoopCounter k) with
    | none => throwLoopCounter k
    | some (n, _) => n

theorem closeLoopCounter_eq_zero (k : ℕ) : closeLoopCounter k = 0 := by
  induction k with
  | zero => rfl
  | succ k ih => simp [closeLoopCounter, ih, reconnectCall, connectEntry]

theorem throwLoopCounter_eq (k : ℕ) (hk : k ≤ 10) : throwLoopCounter k = k := by
  induction k with
  | zero => rfl
  | succ k ih =>
    have hk' : k ≤ 10 := by omega
    have hklt : ¬ (10 ≤ k) := by omega
    unfold throwLoopCounter
    rw [ih hk']
    simp [reconnectCall, hklt]

/-- C3 (code_bug evaluation): in the _reconnect function taken alone the
claim's formula is exact — the n-th consecutive call (counting from a
counter of 0, i.e. without `connect()` interfering) schedules delay
3000·1.5^(n−1) ms, concretely 3000, 4500, 6750 for n = 1,2,3, and the 11th
call (counter 10) emits the terminal `reconnect_failed` and schedules
nothing.  But in the actual failure loop in which every connection attempt
ends in a `close` event, `connect()` has already reset the counter to 0
(line 40 runs unconditionally), so every scheduled delay is 3000 ms, the
counter never exceeds 1, and `reconnect_failed` is never emitted: the
escalating backoff and the terminal cap are unreachable on the close-event
failure path the claim describes. -/
theorem C3_reconnect_backoff_divergence :
    (reconnectCall 0 = some (1, 3000) ∧ reconnectCall 1 = some (2, 4500) ∧
      reconnectCall 2 = some (3, 6750) ∧ reconnectCall 10 = none) ∧
    (throwLoopCounter 10 = 10 ∧ reconnectCall (throwLoopCounter 10) = none) ∧
    (∀ k : ℕ, reconnectCall (closeLoopCounter k) = some (1, 3000)) := by
  refine ⟨⟨?_, ?_, ?_, ?_⟩, ⟨?_, ?_⟩, ?_⟩
  · simp [reconnectCall]
  · simp [reconnectCall]; norm_num
  · simp [reconnectCall]; norm_num
  · simp [reconnectCall]
  · exact throwLoopCounter_eq 10 (le_refl 10)
  · rw [throwLoopCounter_eq 10 (le_refl 10)]; simp [reconnectCall]
  · intro k
    rw [closeLoopCounter_eq_zero]
    simp [reconnectCall]

/-! ## Percentage stop-loss / take-profit (`tradingService.js` lines 685-713) -/

/-- A JavaScript value passed as `price`: a finite number, `NaN`
(`typeof` number but falsy), or any non-number value. -/
inductive JSNum where
  | num (q : ℚ)
  | nan
  | notNum
deriving Repr, DecidableEq

/-- Model of `side.toLowerCase()`, character by character. -/
def toLowerStr (s : String) : String := ⟨s.data.map Char.toLower⟩

/-- Model of `calculateStopLoss(price, side)` (tradingService.js lines 685-695) with
the percentage from `STOP_LOSS_PERCENTAGE` as a parameter (default 0.02).
The guard `!price || typeof price !== 'number' || !side` returns `null`
(here `none`) exactly when `price` is `0`, `NaN` or not a number, or `side`
is the empty string / missing; a nonzero number passes the guard whatever
its sign. -/
def calculateStopLoss (price : JSNum) (side : String)
    (stopLossPercentage : ℚ) : Option ℚ :=
  match price with
  | .num q =>
    if q = 0 ∨ side = "" then none
    else if toLowerStr side = "buy" then some (q * (1 - stopLossPercentage))
    else some (q * (1 + stopLossPercentage))
  | _ => none

/-- Model of `calculateTakeProfit(price, side)` (tradingService.js lines 703-713)
with the percentage from `TAKE_PROFIT_PERCENTAGE` as a parameter
(default 0.05). -/
def calculateTakeProfit (price : JSNum) (side : String)
    (takeProfitPercentage : ℚ) : Option ℚ :=
  match price with
  | .num q =>
    if q = 0 ∨ side = "" then none
    else if toLowerStr side = "buy" then some (q * (1 + takeProfitPercentage))
    else some (q * (1 - takeProfitPercentage))
  | _ => none

/-- C10 (amended): for a positive numeric price and percentages strictly
between 0 and 1, `calculateStopLoss(p,'buy') = p·(1−stopPct) < p <
p·(1+tpPct) = calculateTakeProfit(p,'buy')`, and for side `'sell'` the
ordering is reversed (takeProfit < p < stopLoss).  Both functions return
`null` (not an exception) when the price is `0`, `NaN`, or not a number,
or when the side is missing — but not for a negative numeric price, which
still produces a numeric result (see the counterexample). -/
theorem C10_stop_take_ordering (p sp tp : ℚ) (hp : 0 < p)
    (hsp0 : 0 < sp) (_hsp1 : sp < 1) (htp0 : 0 < tp) (_htp1 : tp < 1) :
    (calculateStopLoss (.num p) "buy" sp = some (p * (1 - sp)) ∧
      calculateTakeProfit (.num p) "buy" tp = some (p * (1 + tp)) ∧
      p * (1 - sp) < p ∧ p < p * (1 + tp)) ∧
    (calculateStopLoss (.num p) "sell" sp = some (p * (1 + sp)) ∧
      calculateTakeProfit (.num p) "sell" tp = some (p * (1 - tp)) ∧
      p * (1 - tp) < p ∧ p < p * (1 + sp)) ∧
    (calculateStopLoss (.num 0) "buy" sp = none ∧
      calculateStopLoss .nan "buy" sp = none ∧
      calculateStopLoss .notNum "buy" sp = none ∧
      calculateStopLoss (.num p) "" sp = none ∧
      calculateTakeProfit (.num 0) "buy" tp = none ∧
      calculateTakeProfit .nan "buy" tp = none ∧
      calculateTakeProfit .notNum "buy" tp = none ∧
      calculateTakeProfit (.num p) "" tp = none) := by
  have hp0 : p ≠ 0 := ne_of_gt hp
  refine ⟨⟨?_, ?_, ?_, ?_⟩, ⟨?_, ?_, ?_, ?_⟩, ?_, rfl, rfl, ?_, ?_, rfl, rfl, ?_⟩
  · simp only [calculateStopLoss, hp0, false_or, if_neg]
    rw [if_neg (by simp), if_pos (by decide)]
  · simp only [calculateTakeProfit, hp0, false_or, if_neg]
    rw [if_neg (by simp), if_pos (by decide)]
  · nlinarith
  · nlinarith
  · simp only [calculateStopLoss, hp0, false_or, if_neg]
    rw [if_neg (by simp), if_neg (by decide)]
  · simp only [calculateTakeProfit, hp0, false_or, if_neg]
    rw [if_neg (by simp), if_neg (by decide)]
  · nlinarith
  · nlinarith
  · simp [calculateStopLoss]
  · simp [calculateStopLoss]
  · simp [calculateTakeProfit]
  · simp [calculateTakeProfit]

/-- C10 witness: the ordering theorem instantiated at p = 200, stopPct =
0.02, tpPct = 0.05: stop loss 196 < 200 < 210 take profit on 'buy'. -/
theorem C10_stop_take_ordering_witness :
    (0 < (200 : ℚ) ∧ 0 < (2/100 : ℚ) ∧ (2/100 : ℚ) < 1 ∧
      0 < (5/100 : ℚ) ∧ (5/100 : ℚ) < 1) ∧
    (calculateStopLoss (.num 200) "buy" (2/100) = some (200 * (1 - 2/100)) ∧
      calculateTakeProfit (.num 200) "buy" (5/100) = some (200 * (1 + 5/100)) ∧
      (200 : ℚ) * (1 - 2/100) < 200 ∧ (200 : ℚ) < 200 * (1 + 5/100)) := by
  refine ⟨⟨by norm_num, by norm_num, by norm_num, by norm_num, by norm_num⟩, ?_⟩
  exact (C10_stop_take_ordering 200 (2/100) (5/100) (by norm_num) (by norm_num)
    (by norm_num) (by norm_num) (by norm_num)).1

/-- C10 counterexample: the claim states both functions return `null`
whenever the price is not a positive number.  A negative price −1 is not a
positive number, yet with the default percentages `calculateStopLoss(-1,
'buy')` returns −0.98 and `calculateTakeProfit(-1, 'buy')` returns −1.05:
only falsy (`0`/`NaN`) or non-number prices hit the `null` guard. -/
theorem C10_counterexample :
    calculateStopLoss (.num (-1)) "buy" (2/100) = some (-49/50) ∧
    calculateTakeProfit (.num (-1)) "buy" (5/100) = some (-21/20) ∧
    ¬ (0 : ℚ) < -1 := by
  refine ⟨?_, ?_, by norm_num⟩
  · norm_num [calculateStopLoss, toLowerStr]
    decide
  · norm_num [calculateTakeProfit, toLowerStr]
    decide

/-! ## AI-enhanced signal generation (`generateAIEnhancedSignal`,
indicators.js lines 204-309)

The individual indicators (RSI, MACD, Bollinger bands, stochastic, EMA, ATR)
are computed by the external `technicalindicators` library; the embedding
takes their values as inputs.  The source returns `null` when any numeric
indicator is falsy (the `!rsi || ... || !atr` guard, which also fires on a
zero indicator value); library-`null` indicator results are outside the
embedded domain and covered by the same guard. -/

/-- The indicator weight table (indicators.js lines 457-464). -/
structure Weights where
  rsi : ℚ
  macd : ℚ
  bollingerBands : ℚ
  stochastic : ℚ
  ema : ℚ
  volume : ℚ
deriving Repr, DecidableEq

/-- Model of `defaultWeights` (indicators.js lines 457-464). -/
def defaultWeights : Weights :=
  { rsi := 2/10, macd := 2/10, bollingerBands := 15/100,
    stochastic := 15/100, ema := 15/100, volume := 15/100 }

/-- The signal object returned by `generateAIEnhancedSignal` (the
`indicators` diagnostic sub-object and the timestamp are omitted: no claim
mentions them). -/
structure AISignal where
  type : String
  price : ℚ
  stopLoss : ℚ
  takeProfit : ℚ
  confidence : ℚ
deriving Repr, DecidableEq

/-- The weighted `bullishScore - bearishScore` of
`generateAIEnhancedSignal` (indicators.js lines 233-261). -/
def netScore (currentPrice rsi macdLine macdSig bbUpper bbLower
    stochK stochD ema50 ema200 : ℚ) (w : Weights) : ℚ :=
  ((if rsi < 30 then w.rsi else 0) +
    (if macdLine > macdSig then w.macd else 0) +
    (if currentPrice < bbLower then w.bollingerBands else 0) +
    (if stochK < 20 ∧ stochK > stochD then w.stochastic else 0) +
    (if ema50 > ema200 then w.ema else 0)) -
  ((if rsi > 70 then w.rsi else 0) +
    (if macdLine < macdSig then w.macd else 0) +
    (if currentPrice > bbUpper then w.bollingerBands else 0) +
    (if stochK > 80 ∧ stochK < stochD then w.stochastic else 0) +
    (if ema50 < ema200 then w.ema else 0))

/-- Model of `generateAIEnhancedSignal` (indicators.js lines 204-309), scoring and
risk computation.  `currentPrice` is the last close; `macdLine`/`macdSig`
are `macd.MACD`/`macd.signal`; the stop loss is `price ∓ 2·ATR` and the
take profit `price ± 4·ATR`; the result is kept only when the confidence
`min(|netScore|, 1)·100` reaches 75. -/
def generateAIEnhancedSignal (currentPrice rsi macdLine macdSig bbUpper bbLower
    stochK stochD ema50 ema200 atr : ℚ) (w : Weights) : Option AISignal :=
  if rsi = 0 ∨ ema200 = 0 ∨ ema50 = 0 ∨ atr = 0 then none
  else
    let ns := netScore currentPrice rsi macdLine macdSig bbUpper bbLower
      stochK stochD ema50 ema200 w
    if ns > 1/2 then
      if min ns 1 * 100 ≥ 75 then
        some { type := "LONG", price := currentPrice,
               stopLoss := roundTo8 (currentPrice - atr * 2),
               takeProfit := roundTo8 (currentPrice + atr * 4),
               confidence := roundTo2 (min ns 1 * 100) }
      else none
    else if ns < -(1/2) then
      if min |ns| 1 * 100 ≥ 75 then
        some { type := "SHORT", price := currentPrice,
               stopLoss := roundTo8 (currentPrice + atr * 2),
               takeProfit := roundTo8 (currentPrice - atr * 4),
               confidence := roundTo2 (min |ns| 1 * 100) }
      else none
    else none

/-- The map `roundTo8` fixes every rational whose 8-decimal blow-up is an integer. -/
theorem roundTo8_eq_self (q : ℚ) (n : ℤ) (h : q * 100000000 = (n : ℚ)) :
    roundTo8 q = q := by
  unfold roundTo8
  rw [h, round_intCast, eq_comm, eq_div_iff (by norm_num : (100000000 : ℚ) ≠ 0), h]

/-- C6: whenever `generateAIEnhancedSignal` emits a LONG signal at current
price 100 with ATR 2, the ATR-based risk computation yields
stopLoss = 100 − 2·2 = 96 and takeProfit = 100 + 2·4 = 108 (stop distance
2×ATR, take-profit distance 4×ATR); no support/resistance clamping is
involved in this function. -/
theorem C6_long_risk_at_100_atr2 (rsi macdLine macdSig bbUpper bbLower
    stochK stochD ema50 ema200 : ℚ) (w : Weights) (sig : AISignal)
    (h : generateAIEnhancedSignal 100 rsi macdLine macdSig bbUpper bbLower
      stochK stochD ema50 ema200 2 w = some sig)
    (hty : sig.type = "LONG") :
    sig.stopLoss = 96 ∧ sig.takeProfit = 108 := by
  have h96 : roundTo8 (100 - 2 * 2 : ℚ) = 100 - 2 * 2 :=
    roundTo8_eq_self _ 9600000000 (by norm_num)
  have h108 : roundTo8 (100 + 2 * 4 : ℚ) = 100 + 2 * 4 :=
    roundTo8_eq_self _ 10800000000 (by norm_num)
  unfold generateAIEnhancedSignal at h
  dsimp only at h
  split at h
  · cases h
  · split at h
    · split at h
      · rw [Option.some_inj] at h
        rw [← h]
        refine ⟨?_, ?_⟩
        · show roundTo8 (100 - 2 * 2) = 96
          rw [h96]; norm_num
        · show roundTo8 (100 + 2 * 4) = 108
          rw [h108]; norm_num
      · cases h
    · split at h
      · split at h
        · rw [Option.some_inj] at h
          rw [← h] at hty
          simp at hty
        · cases h
      · cases h

/-- C6 witness: with the default weights and indicator values on which all
five bullish conditions fire (RSI 20, MACD line above signal, price below
the lower band, stochastic K 10 above D 5 and under 20, EMA50 2 over
EMA200 1), the function emits a LONG at price 100 / ATR 2 with confidence
85, and the theorem yields stopLoss 96 and takeProfit 108. -/
theorem C6_long_risk_at_100_atr2_witness :
    (generateAIEnhancedSignal 100 20 1 0 200 150 10 5 2 1 2 defaultWeights =
      some ⟨"LONG", 100, 96, 108, 85⟩ ∧
      (⟨"LONG", 100, 96, 108, 85⟩ : AISignal).type = "LONG") ∧
    ((⟨"LONG", 100, 96, 108, 85⟩ : AISignal).stopLoss = 96 ∧
      (⟨"LONG", 100, 96, 108, 85⟩ : AISignal).takeProfit = 108) := by
  have h96 : roundTo8 (96 : ℚ) = 96 :=
    roundTo8_eq_self _ 9600000000 (by norm_num)
  have h108 : roundTo8 (108 : ℚ) = 108 :=
    roundTo8_eq_self _ 10800000000 (by norm_num)
  have h85 : roundTo2 (85 : ℚ) = 85 := by
    unfold roundTo2
    rw [show ((85 : ℚ) * 100) = ((8500 : ℤ) : ℚ) by norm_num, round_intCast]
    norm_num
  have hns : netScore 100 20 1 0 200 150 10 5 2 1 defaultWeights = 85/100 := by
    rw [netScore]
    norm_num [defaultWeights]
  have heval : generateAIEnhancedSignal 100 20 1 0 200 150 10 5 2 1 2 defaultWeights =
      some ⟨"LONG", 100, 96, 108, 85⟩ := by
    rw [generateAIEnhancedSignal]
    norm_num [hns, min_def, h85, h96, h108]
  exact ⟨⟨heval, rfl⟩,
    C6_long_risk_at_100_atr2 20 1 0 200 150 10 5 2 1 defaultWeights _ heval rfl⟩

/-! ## Optimized risk parameters (`calculateOptimizedRiskParameters`,
indicators.js lines 319-406) -/

/-- An OHLC candle restricted to the fields `calculateOptimizedRiskParameters`
reads (`close`, `high`, `low`). -/
structure Candle where
  high : ℚ
  low : ℚ
  close : ℚ
deriving Repr, DecidableEq

/-- True ranges of consecutive candles: for each candle after the first,
`max(high − low, |high − prevClose|, |low − prevClose|)`. -/
def trueRangesAux : ℚ → List Candle → List ℚ
  | _, [] => []
  | prevClose, c :: rest =>
    max (c.high - c.low) (max |c.high - prevClose| |c.low - prevClose|) ::
      trueRangesAux c.close rest

/-- Wilder smoothing over the true-range list with period 14: simple average
of the first 14 true ranges, then `atr ← (13·atr + tr)/14` for the rest. -/
def wilderATR (trs : List ℚ) : ℚ :=
  (trs.drop 14).foldl (fun atr tr => (atr * 13 + tr) / 14) ((trs.take 14).sum / 14)

/-- Modelled from the spec: the volatility measure is the average true range
of the recent candles ("derive a volatility measure (average true range)
from recent candles").  In the source `calculateATR` (indicators.js lines
154-172) delegates to the external `technicalindicators` library (Wilder's
ATR, period 14); the library is not part of this repository, so its
documented algorithm is reproduced here: `null` when fewer than period+1
closes exist, else the Wilder-smoothed average of the true ranges. -/
def calculateATR (candles : List Candle) : Option ℚ :=
  if candles.length < 14 + 1 then none
  else
    match candles with
    | [] => none
    | c :: rest => some (wilderATR (trueRangesAux c.close rest))

/-- Model of `prices.high.slice(-20)` / `prices.low.slice(-20)`: the last 20 entries
(or all of them when fewer than 20 exist). -/
def lastN (n : ℕ) (l : List ℚ) : List ℚ := l.drop (l.length - n)

/-- Model of `Math.max(...list)` on a nonempty list (the embedding is only used on
nonempty candle lists; JavaScript returns −Infinity on an empty spread). -/
def maxOfD : List ℚ → ℚ
  | [] => 0
  | x :: xs => xs.foldl max x

/-- Model of `Math.min(...list)` on a nonempty list. -/
def minOfD : List ℚ → ℚ
  | [] => 0
  | x :: xs => xs.foldl min x

/-- Model of `nearestResistance = Math.max(...recentHighs)` (indicators.js line 337). -/
def nearestResistance (candles : List Candle) : ℚ :=
  maxOfD (lastN 20 (candles.map (·.high)))

/-- Model of `nearestSupport = Math.min(...recentLows)` (indicators.js line 336). -/
def nearestSupport (candles : List Candle) : ℚ :=
  minOfD (lastN 20 (candles.map (·.low)))

/-- Model of `volatilityFactor = Math.min(Math.max(atr / entryPrice, 0.005), 0.03)`
(indicators.js line 341); a `null` ATR coerces to 0 in the JavaScript
division, yielding the floor 0.005. -/
def volatilityFactor (entryPrice : ℚ) (candles : List Candle) : ℚ :=
  min (max ((calculateATR candles).getD 0 / entryPrice) (5/1000)) (3/100)

/-- LONG stop loss (indicators.js lines 348-351):
`max(entry − idealStopDistance, max(support·0.998, entry − 1.5·idealStopDistance))`. -/
def longStopLoss (entryPrice : ℚ) (candles : List Candle) : ℚ :=
  let idealStopDistance := entryPrice * volatilityFactor entryPrice candles
  max (entryPrice - idealStopDistance)
    (max (nearestSupport candles * (998/1000))
      (entryPrice - idealStopDistance * (3/2)))

/-- LONG take-profit target before the resistance cap (line 355):
entry + 2.5 × risk. -/
def longTakeProfitRaw (entryPrice : ℚ) (candles : List Candle) : ℚ :=
  entryPrice + (entryPrice - longStopLoss entryPrice candles) * (5/2)

/-- LONG take profit after the cap (lines 358-360): when the 2.5× target
exceeds the nearest resistance it becomes `resistance · 1.01` — slightly
ABOVE the resistance, per the source comment "Cap take profit at or
slightly above resistance". -/
def longTakeProfit (entryPrice : ℚ) (candles : List Candle) : ℚ :=
  if longTakeProfitRaw entryPrice candles > nearestResistance candles then
    nearestResistance candles * (101/100)
  else longTakeProfitRaw entryPrice candles

/-- SHORT stop loss (lines 365-368). -/
def shortStopLoss (entryPrice : ℚ) (candles : List Candle) : ℚ :=
  let idealStopDistance := entryPrice * volatilityFactor entryPrice candles
  min (entryPrice + idealStopDistance)
    (min (nearestResistance candles * (1002/1000))
      (entryPrice + idealStopDistance * (3/2)))

/-- SHORT take-profit target before the support cap (line 372). -/
def shortTakeProfitRaw (entryPrice : ℚ) (candles : List Candle) : ℚ :=
  entryPrice - (shortStopLoss entryPrice candles - entryPrice) * (5/2)

/-- SHORT take profit after the cap (lines 375-377): when the target falls
below the nearest support it becomes `support · 0.99` — slightly BELOW. -/
def shortTakeProfit (entryPrice : ℚ) (candles : List Candle) : ℚ :=
  if shortTakeProfitRaw entryPrice candles < nearestSupport candles then
    nearestSupport candles * (99/100)
  else shortTakeProfitRaw entryPrice candles

/-- The `{stopLoss, takeProfit, riskRewardRatio}` result object. -/
structure RiskParams where
  stopLoss : ℚ
  takeProfit : ℚ
  riskRewardRatio : ℚ
deriving Repr, DecidableEq

/-- Model of `calculateOptimizedRiskParameters(signalType, entryPrice, candles)`
(indicators.js lines 319-406).  A signal type that is neither LONG nor
SHORT leaves `stopLoss` undefined, so `stopLoss.toFixed(8)` throws and the
catch block returns the fixed-percentage fallback (its else branch). -/
def calculateOptimizedRiskParameters (signalType : String) (entryPrice : ℚ)
    (candles : List Candle) : RiskParams :=
  if signalType = "LONG" then
    { stopLoss := roundTo8 (longStopLoss entryPrice candles),
      takeProfit := roundTo8 (longTakeProfit entryPrice candles),
      riskRewardRatio := roundTo2 (|longTakeProfit entryPrice candles - entryPrice| /
        |longStopLoss entryPrice candles - entryPrice|) }
  else if signalType = "SHORT" then
    { stopLoss := roundTo8 (shortStopLoss entryPrice candles),
      takeProfit := roundTo8 (shortTakeProfit entryPrice candles),
      riskRewardRatio := roundTo2 (|shortTakeProfit entryPrice candles - entryPrice| /
        |shortStopLoss entryPrice candles - entryPrice|) }
  else
    { stopLoss := roundTo8 (entryPrice * (1 + 15/1000)),
      takeProfit := roundTo8 (entryPrice * (1 - 38/1000)),
      riskRewardRatio := roundTo2 ((38/1000) / (15/1000)) }

/-- C2 (amended): the take profit targets 2.5× the risk distance — when that
target does not cross the opposing support/resistance level it is returned
as is — but the cap is `1.01 × resistance` for LONG (`0.99 × support` for
SHORT), i.e. the capped take profit lands slightly beyond the level, not at
or inside it: for LONG `takeProfit ≤ roundTo8(resistance · 1.01)` (and this
is the best bound, see the counterexample), symmetrically for SHORT. -/
theorem C2_takeprofit_cap (entryPrice : ℚ) (candles : List Candle)
    (_hne : candles ≠ [])
    (hR : 0 ≤ nearestResistance candles) (hS : 0 ≤ nearestSupport candles) :
    (longTakeProfitRaw entryPrice candles ≤ nearestResistance candles →
      (calculateOptimizedRiskParameters "LONG" entryPrice candles).takeProfit =
        roundTo8 (entryPrice + (entryPrice - longStopLoss entryPrice candles) * (5/2))) ∧
    ((calculateOptimizedRiskParameters "LONG" entryPrice candles).takeProfit ≤
      roundTo8 (nearestResistance candles * (101/100))) ∧
    (nearestSupport candles ≤ shortTakeProfitRaw entryPrice candles →
      (calculateOptimizedRiskParameters "SHORT" entryPrice candles).takeProfit =
        roundTo8 (entryPrice - (shortStopLoss entryPrice candles - entryPrice) * (5/2))) ∧
    (roundTo8 (nearestSupport candles * (99/100)) ≤
      (calculateOptimizedRiskParameters "SHORT" entryPrice candles).takeProfit) := by
  have hLong : (calculateOptimizedRiskParameters "LONG" entryPrice candles).takeProfit =
      roundTo8 (longTakeProfit entryPrice candles) := by
    rw [calculateOptimizedRiskParameters, if_pos rfl]
  have hShort : (calculateOptimizedRiskParameters "SHORT" entryPrice candles).takeProfit =
      roundTo8 (shortTakeProfit entryPrice candles) := by
    rw [calculateOptimizedRiskParameters, if_neg (by simp), if_pos rfl]
  refine ⟨?_, ?_, ?_, ?_⟩
  · intro hcap
    rw [hLong, longTakeProfit, if_neg (not_lt.mpr hcap), longTakeProfitRaw]
  · rw [hLong, longTakeProfit]
    split
    · exact le_refl _
    · next hcap =>
      apply roundTo8_mono
      rw [not_lt] at hcap
      nlinarith
  · intro hcap
    rw [hShort, shortTakeProfit, if_neg (not_lt.mpr hcap), shortTakeProfitRaw]
  · rw [hShort, shortTakeProfit]
    split
    · exact le_refl _
    · next hcap =>
      apply roundTo8_mono
      rw [not_lt] at hcap
      nlinarith

theorem trueRangesAux_replicate (c : Candle) (n : ℕ) :
    trueRangesAux c.close (List.replicate n c) =
      List.replicate n (max (c.high - c.low) (max |c.high - c.close| |c.low - c.close|)) := by
  induction n with
  | zero => simp [trueRangesAux]
  | succ n ih => simp [List.replicate_succ, trueRangesAux, ih]

theorem calculateATR_replicate15 (c : Candle) :
    calculateATR (List.replicate 15 c) =
      some (max (c.high - c.low) (max |c.high - c.close| |c.low - c.close|)) := by
  rw [calculateATR.eq_def, List.length_replicate, if_neg (by norm_num),
    show List.replicate 15 c = c :: List.replicate 14 c from rfl]
  dsimp only
  rw [trueRangesAux_replicate, wilderATR, List.take_replicate, List.drop_replicate]
  norm_num [List.sum_replicate, nsmul_eq_mul]

theorem foldl_min_replicate (a : ℚ) (n : ℕ) :
    (List.replicate n a).foldl min a = a := by
  induction n with
  | zero => rfl
  | succ n ih => simp [List.replicate_succ, min_self, ih]

theorem foldl_max_replicate (a : ℚ) (n : ℕ) :
    (List.replicate n a).foldl max a = a := by
  induction n with
  | zero => rfl
  | succ n ih => simp [List.replicate_succ, max_self, ih]

theorem minOfD_replicate (a : ℚ) (n : ℕ) :
    minOfD (List.replicate (n + 1) a) = a := by
  rw [List.replicate_succ, minOfD, foldl_min_replicate]

theorem maxOfD_replicate (a : ℚ) (n : ℕ) :
    maxOfD (List.replicate (n + 1) a) = a := by
  rw [List.replicate_succ, maxOfD, foldl_max_replicate]

/-- Fifteen identical candles (high 100.2, low 99, close 100): the true range of
every consecutive pair is 1.2, so the ATR is exactly 1.2, the last-20-highs
maximum is 100.2 and the last-20-lows minimum is 99. -/
def cexCandles : List Candle := List.replicate 15 ⟨501/5, 99, 100⟩

theorem nearestResistance_cex : nearestResistance cexCandles = 501/5 := by
  rw [nearestResistance, cexCandles, List.map_replicate, lastN]
  simp only [List.length_replicate]
  rw [show (15 - 20 : ℕ) = 0 from rfl, List.drop_zero]
  exact maxOfD_replicate _ 14

theorem nearestSupport_cex : nearestSupport cexCandles = 99 := by
  rw [nearestSupport, cexCandles, List.map_replicate, lastN]
  simp only [List.length_replicate]
  rw [show (15 - 20 : ℕ) = 0 from rfl, List.drop_zero]
  exact minOfD_replicate _ 14

theorem calculateATR_cex : (calculateATR cexCandles).getD 0 = 6/5 := by
  rw [cexCandles, calculateATR_replicate15]
  have h1 : |(501/5 : ℚ) - 100| = 1/5 := by
    rw [show (501/5 : ℚ) - 100 = 1/5 by norm_num]
    exact abs_of_nonneg (by norm_num)
  have h2 : |(99 : ℚ) - 100| = 1 := by
    rw [show (99 : ℚ) - 100 = -1 by norm_num, abs_neg, abs_one]
  simp only [Option.getD_some]
  rw [h1, h2]
  rw [show (501/5 : ℚ) - 99 = 6/5 by norm_num]
  rw [max_eq_right (by norm_num : ((1:ℚ)/5) ≤ 1)]
  exact max_eq_left (by norm_num)

theorem volatilityFactor_cex : volatilityFactor 100 cexCandles = 12/1000 := by
  rw [volatilityFactor, calculateATR_cex]
  rw [show ((6:ℚ)/5) / 100 = 12/1000 by norm_num]
  rw [max_eq_left (by norm_num : ((5:ℚ)/1000) ≤ 12/1000)]
  exact min_eq_left (by norm_num)

theorem longStopLoss_cex : longStopLoss 100 cexCandles = 49401/500 := by
  rw [longStopLoss, volatilityFactor_cex, nearestSupport_cex]
  rw [show (100 : ℚ) - 100 * (12/1000) = 494/5 by norm_num]
  rw [show (99 : ℚ) * (998/1000) = 49401/500 by norm_num]
  rw [show (100 : ℚ) - 100 * (12/1000) * (3/2) = 491/5 by norm_num]
  rw [max_eq_left (by norm_num : (491/5 : ℚ) ≤ 49401/500)]
  exact max_eq_right (by norm_num)

theorem longTakeProfit_cex : longTakeProfit 100 cexCandles = 50601/500 := by
  rw [longTakeProfit, longTakeProfitRaw, longStopLoss_cex, nearestResistance_cex]
  rw [if_pos (by norm_num : (100 : ℚ) + (100 - 49401/500) * (5/2) > 501/5)]
  norm_num

/-- C2 counterexample: with entry 100, direction LONG and 15 identical
candles (high 100.2, low 99, close 100, ATR 1.2), the 2.5×-risk target
102.995 exceeds the nearest resistance 100.2, so the source sets
takeProfit = 100.2 × 1.01 = 101.202 — STRICTLY ABOVE the maximum of the
last 20 highs, contradicting the claim that the take profit never exceeds
that level. -/
theorem C2_counterexample :
    (calculateOptimizedRiskParameters "LONG" 100 cexCandles).takeProfit = 101202/1000 ∧
    nearestResistance cexCandles = 501/5 ∧
    ((501/5 : ℚ) < 101202/1000) := by
  refine ⟨?_, nearestResistance_cex, by norm_num⟩
  rw [calculateOptimizedRiskParameters, if_pos rfl]
  show roundTo8 (longTakeProfit 100 cexCandles) = 101202/1000
  rw [longTakeProfit_cex,
    roundTo8_eq_self _ 10120200000 (by norm_num)]
  norm_num

/-- C2 witness: the amended cap theorem applied to the concrete candle list
`cexCandles` with entry price 100. -/
theorem C2_takeprofit_cap_witness :
    (cexCandles ≠ [] ∧ 0 ≤ nearestResistance cexCandles ∧
      0 ≤ nearestSupport cexCandles) ∧
    ((calculateOptimizedRiskParameters "LONG" 100 cexCandles).takeProfit ≤
      roundTo8 (nearestResistance cexCandles * (101/100)) ∧
      roundTo8 (nearestSupport cexCandles * (99/100)) ≤
        (calculateOptimizedRiskParameters "SHORT" 100 cexCandles).takeProfit) := by
  have hne : cexCandles ≠ [] := by simp [cexCandles]
  have hR : 0 ≤ nearestResistance cexCandles := by rw [nearestResistance_cex]; norm_num
  have hS : 0 ≤ nearestSupport cexCandles := by rw [nearestSupport_cex]; norm_num
  have h := C2_takeprofit_cap 100 cexCandles hne hR hS
  exact ⟨⟨hne, hR, hS⟩, h.2.1, h.2.2.2⟩

/-! ## Trading-pair selection (`marketDataSocket.js` lines 278-331 and
`tradingService.js` lines 280-332) -/

/-- Model of `s.endsWith(t)`, character by character. -/
def strEndsWith (s t : String) : Bool := t.data.isSuffixOf s.data

/-- Model of `pair.symbol.split('_')[0]`: the prefix before the first underscore
(equal to the whole string when no underscore occurs). -/
def baseSymbol (s : String) : String := ⟨s.data.takeWhile (· ≠ '_')⟩

/-- One entry of the Bitget market snapshot as read by
`marketDataSocket.updateTradingPairs` (`symbol`, `usdtVolume`, `marketCap`;
`parseFloat(pair.marketCap || 0)` maps a missing cap to 0, so a missing
field is modelled as the value 0). -/
structure MarketPair where
  symbol : String
  usdtVolume : ℚ
  marketCap : ℚ
deriving Repr, DecidableEq

/-- The mapped `{symbol, volume, marketCap}` objects of
`marketDataSocket.updateTradingPairs` (lines 293-297). -/
structure RankedPair where
  symbol : String
  volume : ℚ
  marketCap : ℚ
deriving Repr, DecidableEq

/-- The sort order of `usdtPairs.sort((a, b) => b.marketCap - a.marketCap)`:
descending market cap. -/
def capGE (a b : RankedPair) : Prop := b.marketCap ≤ a.marketCap

instance : DecidableRel capGE := fun a b =>
  inferInstanceAs (Decidable (b.marketCap ≤ a.marketCap))

instance : IsTotal RankedPair capGE := ⟨fun a b => le_total b.marketCap a.marketCap⟩

instance : IsTrans RankedPair capGE := ⟨fun _ _ _ hab hbc => le_trans hbc hab⟩

/-- The filter/map/filter pipeline of `marketDataSocket.updateTradingPairs`
(lines 287-298): keep `_USDT`-suffixed symbols with a nonempty base, map to
`{symbol: base, volume, marketCap}`, keep positive volume. -/
def mdsProcessPairs (marketData : List MarketPair) : List RankedPair :=
  ((marketData.filter (fun pair =>
      !(baseSymbol pair.symbol == "") && strEndsWith pair.symbol "_USDT")).map
    (fun pair => RankedPair.mk (baseSymbol pair.symbol) pair.usdtVolume pair.marketCap)).filter
    (fun pair => decide (pair.volume > 0))

/-- The selection step (lines 300-312): sort by descending market cap
(JavaScript's stable sort, realised as a stable insertion sort), take the
first 10 as large-cap and the next 30 as mid-cap. -/
def mdsSelectPairs (marketData : List MarketPair) : List String × List String :=
  let sorted := List.insertionSort capGE (mdsProcessPairs marketData)
  ((sorted.take 10).map (·.symbol), ((sorted.drop 10).take 30).map (·.symbol))

/-- Model of `marketDataSocket.updateTradingPairs` (lines 278-331): `none` models a
null/undefined `getMarketData` result; an empty snapshot throws
"No market data received from Bitget", and the catch block logs and
rethrows, so both cases surface as an error to the caller and leave
`this.activeSymbols` untouched.  On success the new combined pair list is
installed. -/
def mdsUpdateTradingPairs (marketData : Option (List MarketPair)) :
    Except String (List String) :=
  match marketData with
  | none => Except.error "No market data received from Bitget"
  | some l =>
    if l.isEmpty then Except.error "No market data received from Bitget"
    else
      Except.ok ((mdsSelectPairs l).1 ++ (mdsSelectPairs l).2)

/-- C5 (amended): after every refresh the selected active list has size at
most 10 + 30 = 40, and the large-cap and mid-cap lists are disjoint
provided the processed snapshot contains no duplicate base symbol (the two
lists are disjoint index ranges of one sorted list, so only a base symbol
occurring twice in the snapshot can land in both — see the
counterexample). -/
theorem C5_pair_selection_bound (marketData : List MarketPair) :
    ((mdsSelectPairs marketData).1 ++ (mdsSelectPairs marketData).2).length ≤ 40 ∧
    (((mdsProcessPairs marketData).map RankedPair.symbol).Nodup →
      (mdsSelectPairs marketData).1.Disjoint (mdsSelectPairs marketData).2) := by
  constructor
  · rw [mdsSelectPairs]
    simp only [List.length_append, List.length_map, List.length_take]
    omega
  · intro hnd
    have hperm : List.Perm (List.insertionSort capGE (mdsProcessPairs marketData))
        (mdsProcessPairs marketData) := List.perm_insertionSort capGE _
    have hnd' : ((List.insertionSort capGE (mdsProcessPairs marketData)).map
        RankedPair.symbol).Nodup := ((hperm.map RankedPair.symbol).nodup_iff).mpr hnd
    rw [mdsSelectPairs]
    set sorted := List.insertionSort capGE (mdsProcessPairs marketData) with hsorted
    have hsplit : sorted.map RankedPair.symbol =
        (sorted.take 10).map RankedPair.symbol ++
          (sorted.drop 10).map RankedPair.symbol := by
      rw [← List.map_append, List.take_append_drop]
    rw [hsplit] at hnd'
    have hdisj : ((sorted.take 10).map RankedPair.symbol).Disjoint
        ((sorted.drop 10).map RankedPair.symbol) :=
      (List.nodup_append.mp hnd').2.2
    intro a ha hmem
    exact hdisj ha (List.map_subset _ (List.take_subset _ _) hmem)

/-- C5 witness: a two-entry snapshot with distinct base symbols satisfies
the no-duplicate hypothesis, and the selection is bounded and disjoint. -/
theorem C5_pair_selection_bound_witness :
    (((mdsProcessPairs [⟨"BTC_USDT", 1, 100⟩, ⟨"ETH_USDT", 1, 50⟩]).map
        RankedPair.symbol).Nodup) ∧
    (((mdsSelectPairs [⟨"BTC_USDT", 1, 100⟩, ⟨"ETH_USDT", 1, 50⟩]).1 ++
        (mdsSelectPairs [⟨"BTC_USDT", 1, 100⟩, ⟨"ETH_USDT", 1, 50⟩]).2).length ≤ 40 ∧
      (mdsSelectPairs [⟨"BTC_USDT", 1, 100⟩, ⟨"ETH_USDT", 1, 50⟩]).1.Disjoint
        (mdsSelectPairs [⟨"BTC_USDT", 1, 100⟩, ⟨"ETH_USDT", 1, 50⟩]).2) := by
  have hnd : ((mdsProcessPairs [⟨"BTC_USDT", 1, 100⟩, ⟨"ETH_USDT", 1, 50⟩]).map
      RankedPair.symbol).Nodup := by decide
  have h := C5_pair_selection_bound [⟨"BTC_USDT", 1, 100⟩, ⟨"ETH_USDT", 1, 50⟩]
  exact ⟨hnd, h.1, h.2 hnd⟩

/-- A snapshot listing `BTC_USDT` twice (the exchange feed is not
deduplicated by the code): caps 100 and 90, with nine other pairs between
them. -/
def dupSnapshot : List MarketPair :=
  [⟨"BTC_USDT", 1, 100⟩, ⟨"C1_USDT", 1, 99⟩, ⟨"C2_USDT", 1, 98⟩,
   ⟨"C3_USDT", 1, 97⟩, ⟨"C4_USDT", 1, 96⟩, ⟨"C5_USDT", 1, 95⟩,
   ⟨"C6_USDT", 1, 94⟩, ⟨"C7_USDT", 1, 93⟩, ⟨"C8_USDT", 1, 92⟩,
   ⟨"C9_USDT", 1, 91⟩, ⟨"BTC_USDT", 1, 90⟩]

/-- C5 counterexample: on a snapshot in which `BTC_USDT` occurs twice (caps
100 and 90), "BTC" is simultaneously the first large-cap entry and the only
mid-cap entry, so the large-cap and mid-cap lists are NOT disjoint: the
code slices disjoint index ranges of one sorted array and never
deduplicates symbols. -/
theorem C5_counterexample :
    "BTC" ∈ (mdsSelectPairs dupSnapshot).1 ∧
    "BTC" ∈ (mdsSelectPairs dupSnapshot).2 ∧
    ¬ (mdsSelectPairs dupSnapshot).1.Disjoint (mdsSelectPairs dupSnapshot).2 := by
  have h1 : "BTC" ∈ (mdsSelectPairs dupSnapshot).1 := by decide
  have h2 : "BTC" ∈ (mdsSelectPairs dupSnapshot).2 := by decide
  exact ⟨h1, h2, fun hd => hd h1 h2⟩

/-- Model of `s.includes(t)`: substring test, character by character. -/
def listContainsSub (pat : List Char) : List Char → Bool
  | [] => pat.isPrefixOf []
  | c :: rest => pat.isPrefixOf (c :: rest) || listContainsSub pat rest

/-- Model of `s.includes(t)` on strings. -/
def strIncludes (s t : String) : Bool := listContainsSub t.data s.data

/-- Model of `s.replace(pat, '')`: remove the first occurrence of `pat`. -/
def replaceFirstAux (pat : List Char) : List Char → List Char
  | [] => []
  | c :: rest =>
    if pat.isPrefixOf (c :: rest) then (c :: rest).drop pat.length
    else c :: replaceFirstAux pat rest

/-- Model of `s.replace(pat, '')` on strings (the source only ever replaces with the
empty string). -/
def strReplace (s pat : String) : String := ⟨replaceFirstAux pat.data s.data⟩

/-- Model of `side.toUpperCase()`, character by character. -/
def toUpperStr (s : String) : String := ⟨s.data.map Char.toUpper⟩

/-- One entry of the Bitget futures snapshot as read by
`tradingService.updateTradingPairs` (`symbol`, `volume24h`, `last`). -/
structure TSPair where
  symbol : String
  volume24h : ℚ
  last : ℚ
deriving Repr, DecidableEq

/-- One CoinGecko `coins/markets` row as read by `enrichWithMarketCapData`. -/
structure Coin where
  symbol : String
  market_cap : ℚ
deriving Repr, DecidableEq

/-- Outcome of the CoinGecko market-cap request inside
`enrichWithMarketCapData` (tradingService.js lines 338-387): a valid array,
an invalid (non-array) response body — which returns early and leaves every
`marketCap` at its initial 0 — or a thrown request error, whose catch block
sets every pair's cap to `volume24h · price`. -/
inductive GeckoResult where
  | ok (coins : List Coin)
  | invalid
  | failed
deriving Repr, DecidableEq

/-- The pair objects after enrichment, sorted by `marketCap`
(tradingService.js lines 299-310). -/
structure TSRankedPair where
  symbol : String
  volume24h : ℚ
  price : ℚ
  marketCap : ℚ
deriving Repr, DecidableEq

/-- The market cap assigned to one pair by `enrichWithMarketCapData`: the
CoinGecko match (case-insensitive on the base currency, i.e. the symbol
with its first "USDT" removed) when present with a truthy cap, else the
`volume24h · price` proxy; 0 when the response body was invalid (early
return before any assignment); `volume24h · price` for every pair when the
request threw. -/
def marketCapOf (gecko : GeckoResult) (symbol : String)
    (volume24h price : ℚ) : ℚ :=
  match gecko with
  | .invalid => 0
  | .failed => volume24h * price
  | .ok coins =>
    match coins.find? (fun coin => !(coin.symbol == "") &&
        (toUpperStr coin.symbol == toUpperStr (strReplace symbol "USDT"))) with
    | some coin => if coin.market_cap ≠ 0 then coin.market_cap
                   else volume24h * price
    | none => volume24h * price

/-- The filter/map pipeline of `tradingService.updateTradingPairs` (lines
297-307) followed by the enrichment: keep `_UMCBL`-suffixed symbols
containing "USDT", strip `_UMCBL`, and atttach the market cap. -/
def tsEnrichedPairs (marketData : List TSPair) (gecko : GeckoResult) :
    List TSRankedPair :=
  (marketData.filter (fun pair =>
      strEndsWith pair.symbol "_UMCBL" && strIncludes pair.symbol "USDT")).map
    (fun pair =>
      { symbol := strReplace pair.symbol "_UMCBL",
        volume24h := pair.volume24h,
        price := pair.last,
        marketCap := marketCapOf gecko (strReplace pair.symbol "_UMCBL")
          pair.volume24h pair.last })

/-- Descending-cap sort order for the tradingService variant. -/
def tsCapGE (a b : TSRankedPair) : Prop := b.marketCap ≤ a.marketCap

instance : DecidableRel tsCapGE := fun a b =>
  inferInstanceAs (Decidable (b.marketCap ≤ a.marketCap))

instance : IsTotal TSRankedPair tsCapGE := ⟨fun a b => le_total b.marketCap a.marketCap⟩

instance : IsTrans TSRankedPair tsCapGE := ⟨fun _ _ _ hab hbc => le_trans hbc hab⟩

/-- The `{tradingPairs, largecapPairs, midcapPairs}` fields of the
TradingService singleton. -/
structure TSState where
  tradingPairs : List String
  largecapPairs : List String
  midcapPairs : List String
deriving Repr, DecidableEq

/-- Model of `tradingService.updateTradingPairs` (lines 280-332): `none` models an
invalid (`null` / non-array) `getMarketData` result or a thrown fetch —
both return (or are caught) with the previous state untouched.  A valid
array — including the EMPTY array — runs the pipeline and installs the new
lists (top 10 by cap as large-cap, next 30 as mid-cap). -/
def tsUpdateTradingPairs (st : TSState) (marketData : Option (List TSPair))
    (gecko : GeckoResult) : TSState :=
  match marketData with
  | none => st
  | some l =>
    let sorted := List.insertionSort tsCapGE (tsEnrichedPairs l gecko)
    let largecap := (sorted.take 10).map (·.symbol)
    let midcap := ((sorted.drop 10).take 30).map (·.symbol)
    { tradingPairs := largecap ++ midcap,
      largecapPairs := largecap, midcapPairs := midcap }

/-- C9 (amended): a malformed (null / non-array) snapshot or a thrown fetch
leaves the previously computed trading-pair state of the TradingService
completely unchanged; no static fallback list exists anywhere — if the
previous set was empty it stays empty (see the counterexample).  The
marketDataSocket variant instead treats a missing OR empty snapshot as an
error that is rethrown to its caller. -/
theorem C9_failed_refresh_keeps_previous (st : TSState) (g : GeckoResult) :
    tsUpdateTradingPairs st none g = st ∧
    mdsUpdateTradingPairs none =
      Except.error "No market data received from Bitget" ∧
    mdsUpdateTradingPairs (some []) =
      Except.error "No market data received from Bitget" :=
  ⟨rfl, rfl, rfl⟩

/-- C9 counterexample: (i) an EMPTY (but well-formed, array-typed) snapshot
does NOT keep the previous tradingService pair set — it wipes it to the
empty list, contrary to the claim; (ii) with no previous set, a failed
refresh installs the empty list, not a static fallback list; (iii) the
marketDataSocket variant raises the failure to its caller instead of
absorbing it. -/
theorem C9_counterexample :
    (tsUpdateTradingPairs ⟨["BTC"], ["BTC"], []⟩ (some []) GeckoResult.failed).tradingPairs
      = [] ∧
    (["BTC"] : List String) ≠ [] ∧
    (tsUpdateTradingPairs ⟨[], [], []⟩ none GeckoResult.failed).tradingPairs = [] ∧
    mdsUpdateTradingPairs none =
      Except.error "No market data received from Bitget" :=
  ⟨rfl, by simp, rfl, rfl⟩

/-! ## Auto-trading orchestration (`executeAutoTrades`,
tradingService.js lines 503-570) -/

/-- A filtered signal as consumed by `executeAutoTrades`: the fields the
function reads (`symbol`, `side`, `confidence`, `pairType`) plus the risk
levels it forwards to `executeTrade`. -/
structure TSignal where
  symbol : String
  side : String
  confidence : ℚ
  pairType : String
  stopLoss : Option ℚ
  takeProfit : Option ℚ
deriving Repr, DecidableEq

/-- Rank 0 for large-cap, 1 for everything else: the two-level priority of the
sort comparator in `executeAutoTrades` (lines 530-537). -/
def pairRank (s : TSignal) : ℕ := if s.pairType = "large-cap" then 0 else 1

/-- The total preorder realised by the comparator
`(a, b) => a large-cap, b not ⇒ −1; b large-cap, a not ⇒ 1;
else b.confidence − a.confidence`: large-cap first, then descending
confidence. -/
def priorityGE (a b : TSignal) : Prop :=
  pairRank a < pairRank b ∨ (pairRank a = pairRank b ∧ b.confidence ≤ a.confidence)

instance : DecidableRel priorityGE := fun _ _ =>
  inferInstanceAs (Decidable (_ ∨ _))

instance : IsTotal TSignal priorityGE := by
  constructor
  intro a b
  rcases Nat.lt_trichotomy (pairRank a) (pairRank b) with h | h | h
  · exact Or.inl (Or.inl h)
  · rcases le_total b.confidence a.confidence with hc | hc
    · exact Or.inl (Or.inr ⟨h, hc⟩)
    · exact Or.inr (Or.inr ⟨h.symm, hc⟩)
  · exact Or.inr (Or.inl h)

instance : IsTrans TSignal priorityGE := by
  constructor
  intro a b c hab hbc
  rcases hab with hab | ⟨hab, hab'⟩
  · rcases hbc with hbc | ⟨hbc, _⟩
    · exact Or.inl (lt_trans hab hbc)
    · exact Or.inl (hbc ▸ hab)
  · rcases hbc with hbc | ⟨hbc, hbc'⟩
    · exact Or.inl (hab ▸ hbc)
    · exact Or.inr ⟨hab.trans hbc, le_trans hbc' hab'⟩

/-- Model of `executeAutoTrades(signals)` (tradingService.js lines 503-570), given
the available USDT balance (the `getAccountBalance` collaborator is
external) and an oracle `exec` for the outcome of each `executeTrade` call
(whose body places the order at the external exchange).  Empty signal
batches and non-positive balances return without trading; otherwise the
signals are sorted large-cap-first then by descending confidence, the
first `min(length, 5)` are each attempted with size
`balance · 0.9 / maxSignals`, and — because every `executeTrade` await sits
in its own try/catch — the result of one attempt never prevents the later
attempts: the list of attempts does not depend on `exec`'s answers. -/
def executeAutoTrades (exec : TSignal → ℚ → Except String Unit)
    (signals : List TSignal) (availableBalance : ℚ) :
    List (TSignal × ℚ × Except String Unit) :=
  if signals.isEmpty then []
  else if availableBalance ≤ 0 then []
  else
    let prioritizedSignals := List.insertionSort priorityGE signals
    let maxSignals := min prioritizedSignals.length 5
    let tradeSize := availableBalance * (9/10) / (maxSignals : ℚ)
    ((prioritizedSignals.take maxSignals).filter
      (fun s => !(s.symbol == "") && !(s.side == ""))).map
      (fun s => (s, tradeSize, exec s tradeSize))

/-- C4: with balance 1000 and a batch of 7 valid signals, exactly 5 trades
are attempted, each sized (1000·0.9)/5 = 180, the 5 chosen signals place
every large-cap before every mid-cap and are in descending confidence
within equal categories, every attempted signal comes from the batch, and
the attempt list is the same whatever each `executeTrade` call returns or
throws (`exec` is universally quantified). -/
theorem C4_auto_trade_batch (signals : List TSignal)
    (exec : TSignal → ℚ → Except String Unit)
    (h7 : signals.length = 7)
    (hvalid : ∀ s ∈ signals, s.symbol ≠ "" ∧ s.side ≠ "") :
    (executeAutoTrades exec signals 1000).length = 5 ∧
    (∀ r ∈ executeAutoTrades exec signals 1000, r.2.1 = 180) ∧
    ((executeAutoTrades exec signals 1000).map (fun r => r.1)).Pairwise
      (fun a b => (b.pairType = "large-cap" → a.pairType = "large-cap") ∧
        (a.pairType = b.pairType → b.confidence ≤ a.confidence)) ∧
    (∀ r ∈ executeAutoTrades exec signals 1000, r.1 ∈ signals) := by
  have hne : signals.isEmpty = false := by
    cases signals with
    | nil => cases h7
    | cons a t => rfl
  have hlen : (List.insertionSort priorityGE signals).length = 7 := by
    rw [List.length_insertionSort, h7]
  have hmin : min (List.insertionSort priorityGE signals).length 5 = 5 := by
    rw [hlen]
    rfl
  have hsize : (1000 : ℚ) * (9/10) /
      ((min (List.insertionSort priorityGE signals).length 5 : ℕ) : ℚ) = 180 := by
    rw [hmin]; norm_num
  have hvalid' : ∀ s ∈ (List.insertionSort priorityGE signals).take
      (min (List.insertionSort priorityGE signals).length 5),
      (!(s.symbol == "") && !(s.side == "")) = true := by
    intro s hs
    have hmem : s ∈ signals :=
      (List.perm_insertionSort priorityGE signals).subset (List.take_subset _ _ hs)
    obtain ⟨h1, h2⟩ := hvalid s hmem
    simp [h1, h2]
  have hfilter : ((List.insertionSort priorityGE signals).take
      (min (List.insertionSort priorityGE signals).length 5)).filter
      (fun s => !(s.symbol == "") && !(s.side == "")) =
      (List.insertionSort priorityGE signals).take
        (min (List.insertionSort priorityGE signals).length 5) :=
    List.filter_eq_self.mpr hvalid'
  have hrun : executeAutoTrades exec signals 1000 =
      ((List.insertionSort priorityGE signals).take 5).map
        (fun s => (s, (180 : ℚ), exec s 180)) := by
    rw [executeAutoTrades]
    rw [hne]
    simp only [Bool.false_eq_true, if_false]
    rw [if_neg (by norm_num : ¬ (1000 : ℚ) ≤ 0)]
    rw [hfilter, hsize, hmin]
  refine ⟨?_, ?_, ?_, ?_⟩
  · rw [hrun, List.length_map, List.length_take, hlen]
    rfl
  · intro r hr
    rw [hrun] at hr
    obtain ⟨s, _, rfl⟩ := List.mem_map.mp hr
    rfl
  · rw [hrun]
    have hs : ((List.insertionSort priorityGE signals).take 5).Pairwise priorityGE :=
      (List.sorted_insertionSort priorityGE signals).sublist (List.take_sublist _ _)
    have hmapeq : (((List.insertionSort priorityGE signals).take 5).map
        (fun s => (s, (180 : ℚ), exec s 180))).map (fun r => r.1) =
        (List.insertionSort priorityGE signals).take 5 := by
      rw [List.map_map]
      exact List.map_id _
    rw [hmapeq]
    refine hs.imp ?_
    intro a b hab
    rcases hab with hab | ⟨hab, hab'⟩
    · constructor
      · intro hbl
        by_contra hal
        have : pairRank a = 1 := by rw [pairRank, if_neg hal]
        have : pairRank b = 0 := by rw [pairRank, if_pos hbl]
        omega
      · intro heq
        exfalso
        have : pairRank a = pairRank b := by rw [pairRank, pairRank, heq]
        omega
    · constructor
      · intro hbl
        by_contra hal
        have ha1 : pairRank a = 1 := by rw [pairRank, if_neg hal]
        have hb0 : pairRank b = 0 := by rw [pairRank, if_pos hbl]
        omega
      · intro _
        exact hab'
  · intro r hr
    rw [hrun] at hr
    obtain ⟨s, hs, rfl⟩ := List.mem_map.mp hr
    exact (List.perm_insertionSort priorityGE signals).subset
      (List.take_subset _ _ hs)

/-- The 7 qualifying signals of the C4 witness: 3 large-cap, 4 mid-cap. -/
def wSignals : List TSignal :=
  [⟨"AAA", "buy", 9/10, "mid-cap", none, none⟩,
   ⟨"BBB", "sell", 8/10, "large-cap", none, none⟩,
   ⟨"CCC", "buy", 7/10, "large-cap", none, none⟩,
   ⟨"DDD", "sell", 95/100, "mid-cap", none, none⟩,
   ⟨"EEE", "buy", 99/100, "large-cap", none, none⟩,
   ⟨"FFF", "sell", 6/10, "mid-cap", none, none⟩,
   ⟨"GGG", "buy", 5/10, "mid-cap", none, none⟩]

/-- An `executeTrade` oracle that throws on one of the large-cap symbols:
the batch still attempts 5 trades. -/
def wExec : TSignal → ℚ → Except String Unit := fun s _ =>
  if s.symbol = "BBB" then Except.error "order rejected" else Except.ok ()

/-- C4 witness: the batch theorem at the 7 concrete signals, balance 1000,
with an oracle that rejects one order. -/
theorem C4_auto_trade_batch_witness :
    (wSignals.length = 7 ∧ (∀ s ∈ wSignals, s.symbol ≠ "" ∧ s.side ≠ "")) ∧
    (executeAutoTrades wExec wSignals 1000).length = 5 :=
  ⟨⟨rfl, by decide⟩, (C4_auto_trade_batch wSignals wExec rfl (by decide)).1⟩

/-! ## Downstream client hub (`wsServer.js`)

The client registry `this.clients` (a Map from client id to
`{ws, subscriptions, isAlive, lastPing}`) is modelled as an association
list keyed by a numeric client id; the `ws` handle and `lastPing` field are
not read by the modelled logic.

The hub calls `marketDataSocket.unsubscribe(...)` to release upstream
channels, but NO `unsubscribe` (or `subscribe`) method exists on the
`MarketDataSocket` class in any revision of
`src/backend/websockets/marketDataSocket.js`: invoking the undefined
property throws a `TypeError` synchronously.  The model therefore
represents each attempted downstream call as its argument list paired with
the outcome, which is always the `TypeError`; the callers' control flow
around the throw is reproduced exactly (the `.catch(...)` chained in
`unsubscribeClientFromAllSymbols` is never reached because the throw
happens while evaluating the call itself). -/

/-- One registry entry value: `{subscriptions, isAlive}`. -/
structure ClientInfo where
  subscriptions : List String
  isAlive : Bool
deriving Repr, DecidableEq

/-- The client registry. -/
abbrev HubState := List (ℕ × ClientInfo)

/-- Model of `this.clients.get(clientId)`. -/
def lookupClient : HubState → ℕ → Option ClientInfo
  | [], _ => none
  | e :: rest, cid => if e.1 = cid then some e.2 else lookupClient rest cid

/-- Replace the stored info of a client (mutation of the Map value). -/
def updateClient : HubState → ℕ → ClientInfo → HubState
  | [], _, _ => []
  | e :: rest, cid, info =>
    if e.1 = cid then (cid, info) :: updateClient rest cid info
    else e :: updateClient rest cid info

/-- Model of `this.clients.delete(clientId)`. -/
def eraseClient (st : HubState) (cid : ℕ) : HubState :=
  st.filter (fun e => !(e.1 == cid))

/-- The inner loop of `handleUnsubscribe` / `unsubscribeClientFromAllSymbols`
(wsServer.js lines 216-228 and 250-264): is any OTHER client subscribed to
the symbol? -/
def subscribedByOthers (st : HubState) (cid : ℕ) (symbol : String) : Bool :=
  st.any (fun e => !(e.1 == cid) && e.2.subscriptions.contains symbol)

/-- A message sent to the requesting client (`unsubscribed` confirmation,
or the `error` answer produced by the catch in the `message` listener,
wsServer.js lines 72-79, whose `message` field is
"Failed to process message"; the `error` detail field is omitted). -/
inductive OutMsg where
  | unsubscribed (symbols : List String)
  | errorMsg (message : String)
deriving Repr, DecidableEq

/-- Outcome of one invocation of `marketDataSocket.unsubscribe`. -/
inductive CallOutcome where
  | ok
  | typeError (message : String)
deriving Repr, DecidableEq

/-- Model of `marketDataSocket.unsubscribe(symbols)`: the method does not
exist on the exported `MarketDataSocket` instance, so the invocation always
throws `TypeError: marketDataSocket.unsubscribe is not a function`. -/
def mdsUnsubscribeCall (_symbols : List String) : CallOutcome :=
  CallOutcome.typeError "marketDataSocket.unsubscribe is not a function"

/-- Whether the recorded downstream call (if any) threw. -/
def threw : Option (List String × CallOutcome) → Bool
  | some (_, CallOutcome.typeError _) => true
  | _ => false

/-- Model of `unsubscribeClientFromAllSymbols(clientId)` (wsServer.js lines
243-275): clear the client's subscription set, collect every cleared symbol
no remaining client needs and — when that list is non-empty — invoke
`marketDataSocket.unsubscribe(...)`.  The invocation throws synchronously
(the method is undefined), before the chained `.catch` could attach, so the
`TypeError` escapes to this function's caller; the subscription-set
mutation has already happened.  The client entry itself is never removed
here. -/
def unsubscribeClientFromAllSymbols (st : HubState) (cid : ℕ) :
    HubState × Option (List String × CallOutcome) :=
  match lookupClient st cid with
  | none => (st, none)
  | some client =>
    let st' := updateClient st cid ⟨[], client.isAlive⟩
    let symbolsToUnsubscribe := client.subscriptions.filter
      (fun s => !(subscribedByOthers st' cid s))
    if symbolsToUnsubscribe.isEmpty then (st', none)
    else (st', some (symbolsToUnsubscribe, mdsUnsubscribeCall symbolsToUnsubscribe))

/-- Model of `handleUnsubscribe(clientId, data)` (wsServer.js lines
190-241) together with the enclosing `message`-listener try/catch (lines
68-80), for a present or absent `symbols` array (`none` = the field is
missing, which unsubscribes everything and sends no confirmation).  For a
symbol list the code deletes each requested symbol from the client's set
and collects every REQUESTED symbol no other client subscribes to —
whether or not the requesting client had ever subscribed it.  When that
list is empty no downstream call happens and the `unsubscribed`
confirmation is sent; when it is non-empty the code awaits
`marketDataSocket.unsubscribe(...)`, which throws (the method is missing),
so the confirmation on line 235 is never reached and the outer catch
answers the client with an `error` message instead. -/
def handleUnsubscribe (st : HubState) (cid : ℕ)
    (symbols : Option (List String)) :
    HubState × List OutMsg × Option (List String × CallOutcome) :=
  match lookupClient st cid with
  | none => (st, [], none)
  | some client =>
    match symbols with
    | none =>
      let (st', call) := unsubscribeClientFromAllSymbols st cid
      if threw call then
        (st', [OutMsg.errorMsg "Failed to process message"], call)
      else (st', [], call)
    | some syms =>
      let newSubs := client.subscriptions.filter (fun s => !(syms.contains s))
      let st' := updateClient st cid ⟨newSubs, client.isAlive⟩
      let symbolsToUnsubscribe := syms.filter (fun s => !(subscribedByOthers st' cid s))
      if symbolsToUnsubscribe.isEmpty then
        (st', [OutMsg.unsubscribed syms], none)
      else
        match mdsUnsubscribeCall symbolsToUnsubscribe with
        | CallOutcome.ok =>
          (st', [OutMsg.unsubscribed syms],
            some (symbolsToUnsubscribe, CallOutcome.ok))
        | CallOutcome.typeError e =>
          (st', [OutMsg.errorMsg "Failed to process message"],
            some (symbolsToUnsubscribe, CallOutcome.typeError e))

/-- Model of the `close` handler registered per connection (wsServer.js
lines 83-94): if the client is still in the registry, run
`unsubscribeClientFromAllSymbols` and then `this.clients.delete(clientId)`.
When the unsubscribe accounting throws (its downstream list was non-empty
and the missing method raised a `TypeError`), the handler aborts BEFORE the
delete: the entry stays in the registry with its subscriptions cleared. -/
def closeHandler (st : HubState) (cid : ℕ) :
    HubState × Option (List String × CallOutcome) :=
  match lookupClient st cid with
  | none => (st, none)
  | some _ =>
    let (st', call) := unsubscribeClientFromAllSymbols st cid
    if threw call then (st', call) else (eraseClient st' cid, call)

/-- One tick of the per-client 30-second ping interval (wsServer.js lines
39-56): a dead entry is removed from the registry FIRST and then
`ws.terminate()` fires the close event, whose handler no longer finds the
client (so it attempts no accounting at all); a live entry is marked
not-alive and pinged. -/
def pingIntervalTick (st : HubState) (cid : ℕ) :
    HubState × Option (List String × CallOutcome) :=
  match lookupClient st cid with
  | none => (st, none)
  | some client =>
    if client.isAlive then (updateClient st cid ⟨client.subscriptions, false⟩, none)
    else closeHandler (eraseClient st cid) cid

/-- Model of the `pong` handler (wsServer.js lines 59-65). -/
def pongHandler (st : HubState) (cid : ℕ) : HubState :=
  match lookupClient st cid with
  | none => st
  | some client => updateClient st cid ⟨client.subscriptions, true⟩

theorem lookupClient_updateClient (st : HubState) (cid : ℕ) (info : ClientInfo)
    (h : (lookupClient st cid).isSome) :
    lookupClient (updateClient st cid info) cid = some info := by
  induction st with
  | nil => cases h
  | cons e rest ih =>
    by_cases he : e.1 = cid
    · rw [updateClient, if_pos he, lookupClient, if_pos rfl]
    · rw [updateClient, if_neg he, lookupClient, if_neg he]
      rw [lookupClient, if_neg he] at h
      exact ih h

/-- C7 (amended): unsubscribing a client from a single symbol it never
subscribed to leaves its subscription set unchanged, but it is not a
no-op.  When some OTHER client currently subscribes the symbol, no
downstream call is attempted and the client receives the `unsubscribed`
confirmation.  When no other client subscribes it, the code attempts a
downstream `marketDataSocket.unsubscribe` for the never-subscribed symbol
(it never checks the requester's own subscription) — and since that method
does not exist, the call throws a `TypeError` and the client is answered
with an `error` message instead of the confirmation. -/
theorem C7_unsubscribe_unknown_symbol (st : HubState) (cid : ℕ) (sym : String)
    (info : ClientInfo) (hc : lookupClient st cid = some info)
    (hns : sym ∉ info.subscriptions) :
    lookupClient (handleUnsubscribe st cid (some [sym])).1 cid = some info ∧
    (subscribedByOthers (updateClient st cid info) cid sym = true →
      (handleUnsubscribe st cid (some [sym])).2.1 = [OutMsg.unsubscribed [sym]] ∧
      (handleUnsubscribe st cid (some [sym])).2.2 = none) ∧
    (subscribedByOthers (updateClient st cid info) cid sym = false →
      (handleUnsubscribe st cid (some [sym])).2.1 =
        [OutMsg.errorMsg "Failed to process message"] ∧
      (handleUnsubscribe st cid (some [sym])).2.2 =
        some ([sym],
          CallOutcome.typeError "marketDataSocket.unsubscribe is not a function")) := by
  have hfilter : info.subscriptions.filter (fun s => !([sym].contains s)) =
      info.subscriptions := by
    refine List.filter_eq_self.mpr ?_
    intro a ha
    have hne : a ≠ sym := fun heq => hns (heq ▸ ha)
    simp [List.contains, hne]
  have hrun : handleUnsubscribe st cid (some [sym]) =
      (updateClient st cid info,
        if ([sym].filter (fun s =>
            !(subscribedByOthers (updateClient st cid info) cid s))).isEmpty then
          ([OutMsg.unsubscribed [sym]], none)
        else ([OutMsg.errorMsg "Failed to process message"],
          some ([sym].filter (fun s =>
              !(subscribedByOthers (updateClient st cid info) cid s)),
            CallOutcome.typeError "marketDataSocket.unsubscribe is not a function"))) := by
    rw [handleUnsubscribe, hc]
    dsimp only
    rw [hfilter]
    split
    · rfl
    · rfl
  refine ⟨?_, ?_, ?_⟩
  · rw [hrun]
    exact lookupClient_updateClient st cid info (by rw [hc]; rfl)
  · intro hb
    rw [hrun]
    have hf : [sym].filter (fun s =>
        !(subscribedByOthers (updateClient st cid info) cid s)) = [] := by
      simp [List.filter_cons, hb]
    rw [hf]
    exact ⟨rfl, rfl⟩
  · intro hb
    rw [hrun]
    have hf : [sym].filter (fun s =>
        !(subscribedByOthers (updateClient st cid info) cid s)) = [sym] := by
      simp [List.filter_cons, hb]
    rw [hf]
    exact ⟨rfl, rfl⟩

/-- C7 witness: two clients — client 0 never subscribed "BTCUSDT", client 1
holds it.  Client 0's unsubscribe request leaves its (empty) subscription
set unchanged, and because another client still needs the symbol this is
the benign branch: confirmation sent, no downstream call. -/
theorem C7_unsubscribe_unknown_symbol_witness :
    (lookupClient [(0, ⟨[], true⟩), (1, ⟨["BTCUSDT"], true⟩)] 0 =
        some ⟨[], true⟩ ∧
      "BTCUSDT" ∉ (⟨[], true⟩ : ClientInfo).subscriptions) ∧
    (lookupClient
        (handleUnsubscribe [(0, ⟨[], true⟩), (1, ⟨["BTCUSDT"], true⟩)] 0
          (some ["BTCUSDT"])).1 0 = some ⟨[], true⟩ ∧
      ((handleUnsubscribe [(0, ⟨[], true⟩), (1, ⟨["BTCUSDT"], true⟩)] 0
          (some ["BTCUSDT"])).2.1 = [OutMsg.unsubscribed ["BTCUSDT"]] ∧
        (handleUnsubscribe [(0, ⟨[], true⟩), (1, ⟨["BTCUSDT"], true⟩)] 0
          (some ["BTCUSDT"])).2.2 = none)) :=
  ⟨⟨rfl, by decide⟩,
    (C7_unsubscribe_unknown_symbol [(0, ⟨[], true⟩), (1, ⟨["BTCUSDT"], true⟩)]
        0 "BTCUSDT" ⟨[], true⟩ rfl (by decide)).1,
    (C7_unsubscribe_unknown_symbol [(0, ⟨[], true⟩), (1, ⟨["BTCUSDT"], true⟩)]
        0 "BTCUSDT" ⟨[], true⟩ rfl (by decide)).2.1 (by decide)⟩

/-- C7 counterexample: a lone client that never subscribed "BTCUSDT" asks
to unsubscribe it.  The claim requires a no-op with no error and no
downstream unsubscribe; instead the code attempts the downstream call for
"BTCUSDT" (no other client holds it), the missing method throws, and the
client receives an error message — never the confirmation. -/
theorem C7_counterexample :
    (handleUnsubscribe [(0, ⟨[], true⟩)] 0 (some ["BTCUSDT"])).2.2 =
      some (["BTCUSDT"],
        CallOutcome.typeError "marketDataSocket.unsubscribe is not a function") ∧
    (handleUnsubscribe [(0, ⟨[], true⟩)] 0 (some ["BTCUSDT"])).2.1 =
      [OutMsg.errorMsg "Failed to process message"] ∧
    "BTCUSDT" ∉ (⟨[], true⟩ : ClientInfo).subscriptions := by
  exact ⟨by decide, by decide, by decide⟩

/-- C8 (code_bug evaluation): a sole client (id 7) subscribed to "BTCUSDT"
misses one pong (`isAlive = false` at the tick).  The interval callback
removes it from the registry and terminates the socket, and because the
registry entry is deleted BEFORE `terminate()` fires the close event, the
close handler finds no client and no downstream accounting is even
attempted (conjuncts 1-2).  The claim's baseline — a normal disconnect
unsubscribing the symbol upstream — does not exist in this program either:
the close handler of a normally disconnecting client does attempt the
downstream call, but `marketDataSocket.unsubscribe` is missing, the
`TypeError` aborts the handler before `clients.delete`, and the entry is
left in the registry with its subscriptions cleared (conjuncts 3-4).  On
no path is any symbol ever unsubscribed upstream. -/
theorem C8_ping_timeout_divergence :
    (pingIntervalTick [(7, ⟨["BTCUSDT"], false⟩)] 7).1 = [] ∧
    (pingIntervalTick [(7, ⟨["BTCUSDT"], false⟩)] 7).2 = none ∧
    (closeHandler [(7, ⟨["BTCUSDT"], false⟩)] 7).2 =
      some (["BTCUSDT"],
        CallOutcome.typeError "marketDataSocket.unsubscribe is not a function") ∧
    (closeHandler [(7, ⟨["BTCUSDT"], false⟩)] 7).1 = [(7, ⟨[], false⟩)] := by
  refine ⟨by decide, by decide, by decide, by decide⟩

end CryptoSpec
